import Mathlib

/-!
Shallow embedding of `src/check_dig/check_dig.c` (the `dns_lookup` / check_dig
plugin). C strings are modelled as `List Char` (NUL terminator omitted); the
`size_t` subtraction in `parse_output` is modelled with explicit wrap modulo
`2 ^ 64`; `main` is modelled as a pure function of the argument vector, the
exit status returned by `system()` for the constructed `dig` command, and the
single line that `fgets` reads from standard input (the empty list standing
for an empty read). Each model definition carries the name of the C function
it embeds.
-/

namespace CheckDig

/-- A C string literal, as the list of its characters (no NUL terminator). -/
def str (s : String) : List Char := s.toList

/-- `strchr(s, c)`: index of the first occurrence of `c` in `s`, if any. -/
def strchr : List Char → Char → Option Nat
  | [], _ => none
  | c :: cs, t => if c = t then some 0 else (strchr cs t).map (· + 1)

/-- `size_t` arithmetic: an integer reduced modulo `2 ^ 64` (unsigned wrap). -/
def sizeT (z : Int) : Nat := (z % (2 ^ 64 : Int)).toNat

/-- The length argument of the second `strndup` in `parse_output`
(check_dig.c line 89): `strlen(output) - (colon - output) - 2`, computed in
`size_t` arithmetic, with `i` the index of the first colon. -/
def addrLenSizeT (out : List Char) (i : Nat) : Nat :=
  sizeT ((out.length : Int) - (i : Int) - 2)

/-- The address string produced by `strndup(colon + 1, addrLenSizeT out i)`:
`strndup` copies at most the requested number of characters but stops at the
end of the source string, hence `take` of the suffix after the colon. -/
def parsedAddress (out : List Char) (i : Nat) : List Char :=
  (out.drop (i + 1)).take (addrLenSizeT out i)

/-- `print_error(m)` (check_dig.c line 49): the line written to stderr. -/
def errLine (m : List Char) : List Char := str "ERROR: " ++ m

/-- The line written to stdout by `printf("DNS %s - %s\n", record, address)`
(check_dig.c line 98). -/
def dnsLine (record address : List Char) : List Char :=
  str "DNS " ++ record ++ str " - " ++ address

/-- Result of `parse_output`: the returned pointer (`none` for `NULL`)
together with the lines it wrote to stdout and stderr. -/
structure ParseOut where
  result : Option (List Char)
  stdoutLines : List (List Char)
  stderrLines : List (List Char)
deriving DecidableEq

/-- `parse_output(output, expected_address)` (check_dig.c lines 80-103):
scan for the first colon (error to stderr and `NULL` if absent), split into
record and address, compare against the expected address when one is given
(`strcmp`, exact byte equality), and on success print the DNS line. -/
def parse_output (out : List Char) (expected : Option (List Char)) : ParseOut :=
  match strchr out ':' with
  | none => ⟨none, [], [errLine (str "Could not find colon in output of command")]⟩
  | some i =>
    let record := out.take i
    let address := parsedAddress out i
    match expected with
    | some e =>
      if e = address then
        ⟨some out, [dnsLine record address], []⟩
      else
        ⟨none, [], [errLine (str "Expected address not found")]⟩
    | none => ⟨some out, [dnsLine record address], []⟩

/-- Value of a decimal digit character (C `c - '0'`). -/
def digitVal (c : Char) : Nat := c.toNat - 48

/-- Leading-digit accumulator of `atoi`: consume decimal digits, stop at the
first non-digit. -/
def atoiDigits : List Char → Nat → Nat
  | [], acc => acc
  | c :: cs, acc => if c.isDigit then atoiDigits cs (acc * 10 + digitVal c) else acc

/-- C `isspace` for the default locale. -/
def cIsSpace (c : Char) : Bool :=
  c = ' ' || c = '\t' || c = '\n' || c = '\x0b' || c = '\x0c' || c = '\r'

/-- C `atoi`: skip leading whitespace, optional sign, leading decimal digits;
`0` when no digits are present. -/
def atoi (s : List Char) : Int :=
  match s.dropWhile cIsSpace with
  | '-' :: rest => -(atoiDigits rest 0 : Int)
  | '+' :: rest => (atoiDigits rest 0 : Int)
  | rest => (atoiDigits rest 0 : Int)

/-- Outcome of the argument loop of `main` (check_dig.c lines 111-142):
either the collected query address, server port and record type, or the
message passed to `print_error` before `main` returns 1. -/
inductive ArgsResult where
  | ok (queryAddress : List Char) (serverPort : Int) (recordType : List Char)
  | err (message : List Char)
deriving DecidableEq

/-- The argument loop of `main` (check_dig.c lines 111-142), including the
post-loop check that a query address was given. Initial state:
`queryAddress = NULL`, `serverPort = 53`, `recordType = "A"`. -/
def parseArgs : List (List Char) → Option (List Char) → Int → List Char → ArgsResult
  | [], qa, port, rt =>
    match qa with
    | none => .err (str "No query address specified")
    | some q => .ok q port rt
  | a :: rest, qa, port, rt =>
    if a = str "-p" then
      match rest with
      | [] => .err (str "No server port specified")
      | p :: rest2 => parseArgs rest2 qa (atoi p) rt
    else if a = str "-t" then
      match rest with
      | [] => .err (str "No record type specified")
      | t :: rest2 => parseArgs rest2 qa port t
    else
      match qa with
      | none => parseArgs rest (some a) port rt
      | some _ => .err (str "Too many arguments")

/-- `MAX_COMMAND_LENGTH` (check_dig.c line 46). -/
def MAX_COMMAND_LENGTH : Nat := 1024

/-- Decimal digit characters of a natural number, most significant first,
with explicit fuel so the definition reduces in the kernel. -/
def natCharsAux : Nat → Nat → List Char → List Char
  | 0, _, acc => acc
  | fuel + 1, n, acc =>
    let d : Char :=
      match n % 10 with
      | 0 => '0' | 1 => '1' | 2 => '2' | 3 => '3' | 4 => '4'
      | 5 => '5' | 6 => '6' | 7 => '7' | 8 => '8' | _ => '9'
    if n < 10 then d :: acc else natCharsAux fuel (n / 10) (d :: acc)

/-- Decimal representation of a natural number. -/
def natChars (n : Nat) : List Char := natCharsAux (n + 1) n []

/-- `%d` formatting of a C `int`. -/
def intToChars (z : Int) : List Char :=
  if z < 0 then '-' :: natChars z.natAbs else natChars z.toNat

/-- The command built by `snprintf(command_line, sizeof(command_line),
"dig @%s -p %d %s +short", query_address, server_port, record_type)`
(check_dig.c lines 146-147); `snprintf` truncates to 1023 characters plus
the NUL terminator. -/
def commandLine (qa : List Char) (port : Int) (rt : List Char) : List Char :=
  (str "dig @" ++ qa ++ str " -p " ++ intToChars port ++ str " " ++ rt
    ++ str " +short").take (MAX_COMMAND_LENGTH - 1)

/-- The stdout line of `print_command` (check_dig.c lines 54-56): note the
`printf`, so it goes to standard output, not standard error. -/
def echoLine (cmd : List Char) : List Char := str "Running command: " ++ cmd

/-- Observable result of one run of `main`: the `int` it returns (the
process exit code) and the lines written to stdout and stderr. -/
structure ProcResult where
  exitCode : Nat
  stdoutLines : List (List Char)
  stderrLines : List (List Char)
deriving DecidableEq

/-- `main` (check_dig.c lines 105-164) as a pure function of the argument
vector (after `argv[0]`), the status returned by `system()` for the `dig`
command, and the line `fgets` reads from standard input (`[]` models an
empty read, the buffer abstracted as empty). Control flow: argument loop;
on its error, exit 1; otherwise echo the command to stdout, and if the
command status is nonzero report it on stderr and exit 1; otherwise call
`parse_output(output, NULL)`, discard its result, and exit 0. -/
def mainRun (args : List (List Char)) (cmdStatus : Int) (input : List Char) : ProcResult :=
  match parseArgs args none 53 (str "A") with
  | .err m => ⟨1, [], [errLine m]⟩
  | .ok qa port rt =>
    let cmd := commandLine qa port rt
    if cmdStatus ≠ 0 then
      ⟨1, [echoLine cmd], [str "ERROR: Command failed with status " ++ intToChars cmdStatus]⟩
    else
      let p := parse_output input none
      ⟨0, echoLine cmd :: p.stdoutLines, p.stderrLines⟩

/-- C1, counterexample: invoking the program on query name "www.example.com"
with record type A, no expected value, command status 0 and the single
answer line "93.184.216.34" does NOT print exactly the status line
"DNS A - 93.184.216.34" on standard output (the exit code is 0, but the
claimed output is wrong: the answer contains no colon, so `parse_output`
fails, and stdout instead carries the command echo). -/
theorem c1_scenario_a_counterexample :
    ¬ ((mainRun [str "www.example.com"] 0 (str "93.184.216.34\n")).exitCode = 0 ∧
      (mainRun [str "www.example.com"] 0 (str "93.184.216.34\n")).stdoutLines
        = [str "DNS A - 93.184.216.34"]) := by
  decide

/-- C1, amended: on that invocation the program exits with code 0, but the
only standard-output line is the command echo
"Running command: dig @www.example.com -p 53 A +short"; no DNS status line
is printed, and the colon-scan failure goes to standard error. -/
theorem c1_scenario_a_actual :
    mainRun [str "www.example.com"] 0 (str "93.184.216.34\n")
      = ⟨0, [str "Running command: dig @www.example.com -p 53 A +short"],
          [errLine (str "Could not find colon in output of command")]⟩ := by
  decide

/-- C2, counterexample: with the transport returning zero records (empty
read), the process exits with code 0, not 2, and the summary
"no records returned" appears on neither stream. -/
theorem c2_empty_counterexample :
    (mainRun [str "www.example.com"] 0 []).exitCode ≠ 2 ∧
      str "no records returned" ∉ (mainRun [str "www.example.com"] 0 []).stdoutLines ∧
      str "no records returned" ∉ (mainRun [str "www.example.com"] 0 []).stderrLines := by
  decide

/-- C2, amended: for every invocation whose argument loop succeeds and whose
command status is 0, a zero-record (empty) read yields exit code 0 with the
command echo as the only stdout line and the colon-scan error as the only
stderr line; no "no records returned" summary exists in the program. -/
theorem c2_empty_actual (args : List (List Char)) (qa : List Char) (port : Int)
    (rt : List Char) (h : parseArgs args none 53 (str "A") = .ok qa port rt) :
    mainRun args 0 []
      = ⟨0, [echoLine (commandLine qa port rt)],
          [errLine (str "Could not find colon in output of command")]⟩ := by
  unfold mainRun
  rw [h]
  rfl

/-- C2, witness for `c2_empty_actual` at the concrete invocation
["www.example.com"]. -/
theorem c2_empty_actual_witness :
    mainRun [str "www.example.com"] 0 []
      = ⟨0, [echoLine (commandLine (str "www.example.com") 53 (str "A"))],
          [errLine (str "Could not find colon in output of command")]⟩ :=
  c2_empty_actual [str "www.example.com"] (str "www.example.com") 53 (str "A") rfl

/-- C4, counterexample: with no query name given, the process exits with
code 1, not 3. -/
theorem c4_missing_name_counterexample :
    (mainRun [] 0 []).exitCode = 1 ∧ (mainRun [] 0 []).exitCode ≠ 3 := by
  decide

/-- C4, amended: whenever the argument loop reports a missing query address,
the program prints "ERROR: No query address specified" to standard error and
exits with code 1, with nothing on standard output (in particular no command
is echoed or run), independently of the command status and input. -/
theorem c4_missing_name_actual (args : List (List Char)) (cmdStatus : Int)
    (input : List Char)
    (h : parseArgs args none 53 (str "A") = .err (str "No query address specified")) :
    mainRun args cmdStatus input
      = ⟨1, [], [errLine (str "No query address specified")]⟩ := by
  unfold mainRun
  rw [h]

/-- C4, witness for `c4_missing_name_actual` at the empty argument vector. -/
theorem c4_missing_name_actual_witness :
    mainRun [] 0 [] = ⟨1, [], [errLine (str "No query address specified")]⟩ :=
  c4_missing_name_actual [] 0 [] rfl

/-- C5, counterexample: on a response with zero answer lines (empty input),
`parse_output` returns NULL and writes an error line to standard error — it
does not return an empty answer set as a valid result. -/
theorem c5_empty_parse_counterexample :
    (parse_output [] none).result = none ∧ (parse_output [] none).stderrLines ≠ [] := by
  decide

/-- C5, amended: for every value of the expected address, `parse_output` on a
response with zero answer lines fails: it returns NULL and prints
"ERROR: Could not find colon in output of command" to standard error; there
is no empty-answer-set success path. -/
theorem c5_empty_parse_actual (expected : Option (List Char)) :
    parse_output [] expected
      = ⟨none, [], [errLine (str "Could not find colon in output of command")]⟩ := rfl

/-- C5, witness for `c5_empty_parse_actual` with a concrete expected value. -/
theorem c5_empty_parse_actual_witness :
    parse_output [] (some (str "1.2.3.4"))
      = ⟨none, [], [errLine (str "Could not find colon in output of command")]⟩ :=
  c5_empty_parse_actual (some (str "1.2.3.4"))

/-- C6, counterexample: on a mismatch the outcome carries neither the
expected nor the actual value — the result of `parse_output` is identical
for two different expected values (the same NULL result and the same fixed
error line), so it cannot carry the expected value. -/
theorem c6_expected_counterexample :
    parse_output (str "A:1.2.3.4\n") (some (str "5.6.7.8"))
        = parse_output (str "A:1.2.3.4\n") (some (str "9.9.9.9")) ∧
      (parse_output (str "A:1.2.3.4\n") (some (str "5.6.7.8"))).result = none := by
  decide

/-- C6, amended: when an expected value is present and the colon scan finds a
separator, `parse_output` succeeds if and only if the expected string equals
the parsed address exactly (byte-for-byte, case-sensitive, no
normalization); otherwise it fails with the fixed error line
"ERROR: Expected address not found", which carries neither value. -/
theorem c6_expected_match_iff (out e : List Char) (i : Nat)
    (h : strchr out ':' = some i) :
    ((parse_output out (some e)).result.isSome = true ↔ e = parsedAddress out i) ∧
      (e ≠ parsedAddress out i →
        parse_output out (some e)
          = ⟨none, [], [errLine (str "Expected address not found")]⟩) := by
  unfold parse_output
  rw [h]
  by_cases hc : e = parsedAddress out i <;> simp [hc]

/-- C6, witness for `c6_expected_match_iff` at "A:1.2.3.4\n" with expected
value "1.2.3.4". -/
theorem c6_expected_match_iff_witness :
    (((parse_output (str "A:1.2.3.4\n") (some (str "1.2.3.4"))).result.isSome = true ↔
        str "1.2.3.4" = parsedAddress (str "A:1.2.3.4\n") 1) ∧
      (str "1.2.3.4" ≠ parsedAddress (str "A:1.2.3.4\n") 1 →
        parse_output (str "A:1.2.3.4\n") (some (str "1.2.3.4"))
          = ⟨none, [], [errLine (str "Expected address not found")]⟩)) :=
  c6_expected_match_iff (str "A:1.2.3.4\n") (str "1.2.3.4") 1 (by decide)

/-- C7, counterexample: standard output is not limited to the single
"DNS ..." status line — the command echo "Running command: dig @..." is
printed to standard output and does not begin with "DNS ". -/
theorem c7_stdout_counterexample :
    echoLine (commandLine (str "www.example.com") 53 (str "A"))
        ∈ (mainRun [str "www.example.com"] 0 (str "A:1.2.3.4\n")).stdoutLines ∧
      (echoLine (commandLine (str "www.example.com") 53 (str "A"))).take 4
        ≠ str "DNS " := by
  decide

/-- C7, amended: for every invocation whose argument loop succeeds and whose
command status is 0, standard output consists of the command echo line
followed by whatever `parse_output` prints to stdout, and standard error is
exactly what `parse_output` prints to stderr: the exact command issued goes
to standard output, not standard error. -/
theorem c7_stdout_actual (args : List (List Char)) (qa : List Char) (port : Int)
    (rt : List Char) (input : List Char)
    (h : parseArgs args none 53 (str "A") = .ok qa port rt) :
    (mainRun args 0 input).stdoutLines
        = echoLine (commandLine qa port rt) :: (parse_output input none).stdoutLines ∧
      (mainRun args 0 input).stderrLines = (parse_output input none).stderrLines := by
  unfold mainRun
  rw [h]
  simp

/-- C7, witness for `c7_stdout_actual` at the concrete invocation
["www.example.com"] with input "A:1.2.3.4\n". -/
theorem c7_stdout_actual_witness :
    (mainRun [str "www.example.com"] 0 (str "A:1.2.3.4\n")).stdoutLines
        = echoLine (commandLine (str "www.example.com") 53 (str "A"))
            :: (parse_output (str "A:1.2.3.4\n") none).stdoutLines ∧
      (mainRun [str "www.example.com"] 0 (str "A:1.2.3.4\n")).stderrLines
        = (parse_output (str "A:1.2.3.4\n") none).stderrLines :=
  c7_stdout_actual [str "www.example.com"] (str "www.example.com") 53 (str "A")
    (str "A:1.2.3.4\n") rfl

/-- C8, counterexample: the out-of-range port 70000 is accepted — the
argument loop succeeds and carries server port 70000, which is not in
[1, 65535]; no BadPort failure exists. -/
theorem c8_port_counterexample :
    parseArgs [str "-p", str "70000", str "www.example.com"] none 53 (str "A")
        = .ok (str "www.example.com") 70000 (str "A") ∧ ¬ (70000 : Int) ≤ 65535 := by
  decide

/-- C8, amended: the port argument is converted with `atoi` and accepted
without any validation — for EVERY port string `p` the argument loop
succeeds, carrying `atoi p` as the server port (so non-numeric strings
become port 0 and out-of-range values are used as given). -/
theorem c8_port_unvalidated (p : List Char) :
    parseArgs [str "-p", p, str "www.example.com"] none 53 (str "A")
        = .ok (str "www.example.com") (atoi p) (str "A") ∧ atoi (str "abc") = 0 := by
  constructor
  · rfl
  · decide

/-- C8, witness for `c8_port_unvalidated` at the non-numeric port string
"abc". -/
theorem c8_port_unvalidated_witness :
    parseArgs [str "-p", str "abc", str "www.example.com"] none 53 (str "A")
        = .ok (str "www.example.com") (atoi (str "abc")) (str "A") ∧
      atoi (str "abc") = 0 :=
  c8_port_unvalidated (str "abc")

/-- C9: for every invocation whose argument loop succeeds and whose external
command returns status 0, `main` returns exit code 0 — for EVERY input line,
so independently of whether `parse_output` fails (no colon) or succeeds:
`main` discards the return value of `parse_output`. -/
theorem c9_exit_ignores_parse (args : List (List Char)) (qa : List Char) (port : Int)
    (rt : List Char) (input : List Char)
    (h : parseArgs args none 53 (str "A") = .ok qa port rt) :
    (mainRun args 0 input).exitCode = 0 := by
  unfold mainRun
  rw [h]
  simp

/-- C9, witness for `c9_exit_ignores_parse`: even on the colon-free input
"93.184.216.34\n", where `parse_output` fails, the exit code is 0. -/
theorem c9_exit_ignores_parse_witness :
    (mainRun [str "www.example.com"] 0 (str "93.184.216.34\n")).exitCode = 0 :=
  c9_exit_ignores_parse [str "www.example.com"] (str "www.example.com") 53 (str "A")
    (str "93.184.216.34\n") rfl

/-- C10: for every input string whose first colon is its final character,
the `size_t` length `strlen(output) - (colon - output) - 2` passed to
`strndup` wraps modulo `2 ^ 64` to `2 ^ 64 - 1`, while zero characters
remain after the colon — so the requested length vastly exceeds the number
of remaining characters. -/
theorem c10_sizet_underflow (out : List Char) (i : Nat)
    (_hcolon : strchr out ':' = some i) (hlast : i + 1 = out.length) :
    addrLenSizeT out i = 2 ^ 64 - 1 ∧ out.length - (i + 1) = 0 ∧
      out.length - (i + 1) < addrLenSizeT out i := by
  unfold addrLenSizeT sizeT
  rw [← hlast]
  push_cast
  omega

/-- C10, witness for `c10_sizet_underflow` at the concrete input "A:",
whose first colon is its final character. -/
theorem c10_sizet_underflow_witness :
    addrLenSizeT (str "A:") 1 = 2 ^ 64 - 1 ∧ (str "A:").length - (1 + 1) = 0 ∧
      (str "A:").length - (1 + 1) < addrLenSizeT (str "A:") 1 :=
  c10_sizet_underflow (str "A:") 1 (by decide) (by decide)

end CheckDig
